import Mathlib

/-
Verification development for the Digital Twin simulation engine
(`services/digitalTwinService.ts`): a shallow embedding of the twin state
model, the interaction-processing pipeline and the controller operations,
together with theorems about the engine's behaviour.

Modelling conventions:
* JavaScript runtime values that flow through the context mapping are
  modelled by `JVal` (strings, numbers, booleans, `undefined`).  Numbers
  that the pipeline computes with are modelled as `Int` (the engine only
  ever adds/multiplies integer test values; IEEE-754 rounding is outside
  the embedding).  Inert configuration numbers (temperature, top-p) are
  modelled as `Rat` so the default configuration can be stated exactly.
* JavaScript objects used as string-keyed records are association lists
  (`Ctx`) in insertion order; property assignment keeps the position of an
  existing key and appends a new one, exactly like JS object semantics for
  non-integer string keys.
* The dynamic `new Function`/`with(context)` rule-condition evaluator
  cannot be embedded; it is abstracted as an oracle parameter
  `CondEval : String → Ctx → Option JVal`, where `none` models a thrown
  evaluation error (caught by `evaluateCondition` and treated as `false`,
  mirroring the try/catch in the source).
* `Date.now()` is abstracted as explicit timestamp parameters (one per
  call site in the pipeline).
* `JSON.parse(JSON.stringify(x))` deep copies are the identity on the
  modelled (pure) values.
-/

namespace DigitalTwin

/-- JVal models a JavaScript runtime value as stored in the twin's
context mapping, rule payloads and tool arguments. -/
inductive JVal where
  | str (s : String)
  | num (n : Int)
  | bool (b : Bool)
  | undef
deriving DecidableEq, Repr

/-- A JavaScript string-keyed record, as an association list in
insertion order. -/
abbrev Ctx := List (String × JVal)

/-- Truthiness of a JavaScript value (`if (v)`). -/
def JVal.truthy : JVal → Bool
  | .str s => s ≠ ""
  | .num n => n ≠ 0
  | .bool b => b
  | .undef => false

/-- Conversion `String(v)` of a JavaScript value. -/
def JVal.toJSString : JVal → String
  | .str s => s
  | .num n => toString n
  | .bool b => if b then "true" else "false"
  | .undef => "undefined"

/-- Conversion `String(v ?? "")`: nullish values render as the empty
string (used by the template substitution loop). -/
def jsCoalesceString : JVal → String
  | .undef => ""
  | v => v.toJSString

/-- Property read `ctx[k]`: the stored value, or `undefined` when the key
is absent. -/
def ctxGet : Ctx → String → JVal
  | [], _ => .undef
  | kv :: rest, k => if kv.1 = k then kv.2 else ctxGet rest k

/-- Property test `k in ctx`. -/
def ctxHas : Ctx → String → Bool
  | [], _ => false
  | kv :: rest, k => kv.1 == k || ctxHas rest k

/-- Property assignment `ctx[k] = v`: replaces the value of an existing
key in place, otherwise appends the new key (JS insertion-order
semantics). -/
def ctxSet : Ctx → String → JVal → Ctx
  | [], k, v => [(k, v)]
  | kv :: rest, k, v => if kv.1 = k then (k, v) :: rest else kv :: ctxSet rest k v

/-- Object spread `\x7b...a, ...b\x7d`: keys of `a` in order with values
overridden by `b` where present, followed by the keys only in `b`. -/
def jsSpread (a b : Ctx) : Ctx :=
  (a.map fun kv => (kv.1, if ctxHas b kv.1 then ctxGet b kv.1 else kv.2)) ++
    b.filter fun kv => !ctxHas a kv.1

/-- Containment of one character list in another (helper for
`jsIncludes`). -/
def listInfix (needle : List Char) : List Char → Bool
  | [] => needle.isEmpty
  | c :: rest => needle.isPrefixOf (c :: rest) || listInfix needle rest

/-- JavaScript `s.includes(sub)`: substring containment; every string
contains the empty string. -/
def jsIncludes (s sub : String) : Bool :=
  listInfix sub.data s.data

/-- JavaScript `s.toLowerCase()` (ASCII range; the engine's vocabulary
and memory contents are ASCII). -/
def jsToLower (s : String) : String :=
  String.mk (s.data.map Char.toLower)

/-- Fuel-indexed worker for `replaceAll`; each step consumes at least one
character of the remaining input, so fuel = input length suffices. -/
def replaceAllFuel (pat repl : List Char) : Nat → List Char → List Char
  | 0, l => l
  | _ + 1, [] => []
  | fuel + 1, c :: rest =>
    if pat.isPrefixOf (c :: rest) then repl ++ replaceAllFuel pat repl fuel ((c :: rest).drop pat.length)
    else c :: replaceAllFuel pat repl fuel rest

/-- JavaScript `s.replace(new RegExp(pat, "g"), repl)` for a literal
pattern: leftmost non-overlapping replacement of every occurrence. -/
def replaceAll (s pat repl : String) : String :=
  if pat.data.isEmpty then s
  else String.mk (replaceAllFuel pat.data repl.data s.data.length s.data)

/-- JavaScript `s.substring(start, stop)` for `start ≤ stop` (clamped at
the end of the string, as in JS). -/
def jsSubstring (s : String) (start stop : Nat) : String :=
  String.mk ((s.data.take stop).drop start)

/-- Escape of a string for a JSON literal (quote and backslash). -/
def jsonEscape (s : String) : String :=
  String.mk (s.data.foldr
    (fun c acc =>
      if c = '"' then '\\' :: '"' :: acc
      else if c = '\\' then '\\' :: '\\' :: acc
      else c :: acc) [])

/-- Rendering `JSON.stringify` gives to a single value; `none` for
`undefined`, whose properties are dropped from objects. -/
def jsonStringifyVal : JVal → Option String
  | .str s => some ("\"" ++ jsonEscape s ++ "\"")
  | .num n => some (toString n)
  | .bool b => some (if b then "true" else "false")
  | .undef => none

/-- Rendering `JSON.stringify` gives to a string-keyed record. -/
def jsonStringifyCtx (args : Ctx) : String :=
  "\x7b" ++
    String.intercalate ","
      (args.filterMap fun kv =>
        (jsonStringifyVal kv.2).map fun v => "\"" ++ jsonEscape kv.1 ++ "\":" ++ v) ++
  "\x7d"

/-- Template-string rendering of an optional number (`undefined` when
absent), as in the reinforcement-learning feedback label. -/
def renderJSOptNum : Option Int → String
  | some n => toString n
  | none => "undefined"

/-- Addition `a + b` on JavaScript values: exact on numbers; other
operand combinations coerce to string concatenation (an approximation of
the full JS coercion rules, not exercised by the engine). -/
def jsAdd : JVal → JVal → JVal
  | .num a, .num b => .num (a + b)
  | a, b => .str (a.toJSString ++ b.toJSString)

/-- Multiplication `a * b` on JavaScript values: exact on numbers; other
combinations yield NaN, rendered as the string it stringifies to. -/
def jsMul : JVal → JVal → JVal
  | .num a, .num b => .num (a * b)
  | _, _ => .str "NaN"

/-- PromptTemplate from `types.ts`: a named template with `\x7b\x7bvar\x7d\x7d`
placeholders. -/
structure PromptTemplate where
  name : String
  template : String
  variableNames : List String
deriving DecidableEq, Repr

/-- LLMConfig from `types.ts` (inert configuration data). -/
structure LLMConfig where
  modelName : String
  temperature : Rat
  maxTokens : Int
  topP : Rat
deriving DecidableEq, Repr

/-- Action type of a decision rule (`DecisionRule.actionType`). -/
inductive ActionType where
  | LLM_CALL
  | FIXED_RESPONSE
  | PLAN_EXECUTION
  | MEMORY_QUERY
  | TOOL_USE
deriving DecidableEq, Repr

/-- String-literal rendering of an action type, as interpolated by the
unhandled-action branch. -/
def ActionType.label : ActionType → String
  | .LLM_CALL => "LLM_CALL"
  | .FIXED_RESPONSE => "FIXED_RESPONSE"
  | .PLAN_EXECUTION => "PLAN_EXECUTION"
  | .MEMORY_QUERY => "MEMORY_QUERY"
  | .TOOL_USE => "TOOL_USE"

/-- ActionPayload: the TypeScript source types it `any` and reads
`promptName`/`vars` for LLM calls, the payload itself as a string for
fixed responses, and `toolName`/`args` for tool use.  Following the
tagged-union reading, each shape is a constructor; `other` stands for a
payload carried by the unhandled action types. -/
inductive ActionPayload where
  | llm (promptName : String) (vars : Ctx)
  | fixed (text : String)
  | tool (toolName : String) (args : Ctx)
  | other
deriving DecidableEq, Repr

/-- Property read `payload.promptName`; a missing property is JS
`undefined`, which interpolates as the template name "undefined". -/
def ActionPayload.promptName : ActionPayload → String
  | .llm pn _ => pn
  | _ => "undefined"

/-- Property read `payload.vars` (spread of a missing property is the
empty record). -/
def ActionPayload.vars : ActionPayload → Ctx
  | .llm _ vs => vs
  | _ => []

/-- Read of the payload itself as a fixed-response string. -/
def ActionPayload.fixedText : ActionPayload → String
  | .fixed t => t
  | _ => ""

/-- Property read `payload.toolName`. -/
def ActionPayload.toolName : ActionPayload → String
  | .tool tn _ => tn
  | _ => "undefined"

/-- Property read `payload.args`. -/
def ActionPayload.args : ActionPayload → Ctx
  | .tool _ a => a
  | _ => []

/-- DecisionRule from `types.ts`. -/
structure DecisionRule where
  name : String
  condition : String
  actionType : ActionType
  actionPayload : ActionPayload
  priority : Int
deriving DecidableEq, Repr

/-- State-space description inside `RLModelParameters` (inert). -/
structure StateSpace where
  name : String
  dimensions : List (String × String)
deriving DecidableEq, Repr

/-- Action-space description inside `RLModelParameters` (inert). -/
structure ActionSpace where
  name : String
  actions : List String
deriving DecidableEq, Repr

/-- Reward-function description inside `RLModelParameters` (inert). -/
structure RewardFunctionSpec where
  description : String
  logic : String
deriving DecidableEq, Repr

/-- RLModelParameters from `types.ts` (inert configuration data). -/
structure RLModelParameters where
  stateSpace : StateSpace
  actionSpace : ActionSpace
  rewardFunction : RewardFunctionSpec
  learnedPolicyWeights : List (String × Rat)
  explorationRate : Rat
  learningRate : Rat
  discountFactor : Rat
deriving DecidableEq, Repr

/-- One record of the RL experience buffer. -/
structure Experience where
  state : Ctx
  action : String
  reward : Int
  nextState : Ctx
deriving DecidableEq, Repr

/-- The `reinforcementLearning` section of the twin state. -/
structure ReinforcementLearning where
  enabled : Bool
  modelParams : Option RLModelParameters
  currentExperienceBuffer : List Experience
deriving DecidableEq, Repr

/-- Action type of a planning action (inert). -/
inductive PlanningActionType where
  | LLM_CALL
  | TOOL_USE
  | INTERNAL_OPERATION
deriving DecidableEq, Repr

/-- PlanningAction from `types.ts` (inert). -/
structure PlanningAction where
  name : String
  preconditions : List String
  effects : List String
  actionType : PlanningActionType
  payload : Option ActionPayload
deriving DecidableEq, Repr

/-- Plan-execution status (inert). -/
inductive PlanExecutionStatus where
  | IDLE
  | IN_PROGRESS
  | COMPLETED
  | FAILED
deriving DecidableEq, Repr

/-- The `planning` section of the twin state (inert placeholder). -/
structure Planning where
  enabled : Bool
  availableActions : Option (List PlanningAction)
  currentGoal : Option String
  activePlan : Option (List String)
  planExecutionState : Option PlanExecutionStatus
deriving DecidableEq, Repr

/-- Role of a short-term memory record. -/
inductive Role where
  | user
  | agent
deriving DecidableEq, Repr

/-- ShortTermMemoryEntry from `types.ts`; the `sentiment` field stores
whatever value the context held, hence `Option JVal`. -/
structure ShortTermMemoryEntry where
  timestamp : Int
  role : Role
  content : String
  sentiment : Option JVal
  keywords : Option (List String)
deriving DecidableEq, Repr

/-- LongTermMemoryEntry from `types.ts`. -/
structure LongTermMemoryEntry where
  id : String
  content : String
  embedding : Option (List Rat)
  metadata : Option Ctx
deriving DecidableEq, Repr

/-- Vector-DB configuration placeholder (inert). -/
structure VectorDBConfig where
  endpoint : String
  collection : String
deriving DecidableEq, Repr

/-- The `longTermMemory` section of the twin state. -/
structure LongTermMemory where
  entries : List LongTermMemoryEntry
  vectorDBConfig : Option VectorDBConfig
deriving DecidableEq, Repr

/-- The `memory` section of the twin state. -/
structure Memory where
  shortTermMemory : List ShortTermMemoryEntry
  longTermMemory : LongTermMemory
deriving DecidableEq, Repr

/-- The `promptEngineering` section of the twin state. -/
structure PromptEngineering where
  templates : List PromptTemplate
  llmConfig : LLMConfig
deriving DecidableEq, Repr

/-- The `decisionLogic` section of the twin state. -/
structure DecisionLogic where
  rules : List DecisionRule
deriving DecidableEq, Repr

/-- Performance counters of the twin state. -/
structure PerformanceMetrics where
  totalInteractions : Int
  successfulInteractions : Int
  avgResponseTimeMs : Int
deriving DecidableEq, Repr

/-- DigitalTwinState from `types.ts`: the root entity held by the
controller. -/
structure DigitalTwinState where
  id : String
  name : String
  description : String
  promptEngineering : PromptEngineering
  decisionLogic : DecisionLogic
  reinforcementLearning : ReinforcementLearning
  planning : Planning
  memory : Memory
  currentInput : Option String
  currentOutput : Option String
  currentStateContext : Ctx
  lastDecisionPath : List String
  performanceMetrics : PerformanceMetrics
deriving DecidableEq, Repr

/-- Optional environment feedback passed to `processInteraction`. -/
structure Feedback where
  reward : Option Int
deriving DecidableEq, Repr

/-- Oracle standing for the dynamic `new Function` rule-condition
evaluator; `none` models a thrown evaluation error. -/
abbrev CondEval := String → Ctx → Option JVal

/-- Helper `updateContextFromInput` of the source: derives the
`input`, `inputLength`, `isQuestion` and `sentiment` context fields from
the raw input text (positive cues checked before negative cues). -/
def updateContextFromInput (context : Ctx) (input : String) : Ctx :=
  let context := ctxSet context "input" (.str input)
  let context := ctxSet context "inputLength" (.num input.length)
  let context := ctxSet context "isQuestion" (.bool (jsIncludes input "?"))
  ctxSet context "sentiment"
    (.str (if jsIncludes input "great" || jsIncludes input "good" then "positive"
      else if jsIncludes input "bad" || jsIncludes input "terrible" then "negative"
      else "neutral"))

/-- Helper `retrieveRelevantMemory` of the source: the content of the
first long-term memory entry whose content contains the query as a
case-insensitive substring, or the empty string. -/
def retrieveRelevantMemory (twinState : DigitalTwinState) (query : String) : String :=
  let relevantEntries := twinState.memory.longTermMemory.entries.filter
    fun entry => jsIncludes (jsToLower entry.content) (jsToLower query)
  match relevantEntries with
  | [] => ""
  | entry :: _ => entry.content

/-- Helper `evaluateCondition` of the source: runs the dynamic evaluator
(the oracle) and takes the truthiness of the result; an evaluation error
is caught and treated as `false`. -/
def evaluateCondition (condEval : CondEval) (condition : String) (context : Ctx) : Bool :=
  match condEval condition context with
  | some v => v.truthy
  | none => false

/-- Substitution loop of `simulateLLMCall`: replace every occurrence of
`\x7b\x7bkey\x7d\x7d` by `String(vars[key] ?? "")`, iterating over the
keys of `vars` in insertion order. -/
def substituteVars (template : String) (vars : Ctx) : String :=
  vars.foldl
    (fun prompt kv => replaceAll prompt ("\x7b\x7b" ++ kv.1 ++ "\x7d\x7d") (jsCoalesceString kv.2))
    template

/-- Helper `simulateLLMCall` of the source: template lookup, placeholder
substitution and the canned deterministic responder. -/
def simulateLLMCall (twinState : DigitalTwinState) (templateName : String) (vars : Ctx) : String :=
  match twinState.promptEngineering.templates.find? (fun t => t.name == templateName) with
  | none => "Error: Prompt template \x27" ++ templateName ++ "\x27 not found."
  | some template =>
    let prompt := substituteVars template.template vars
    if jsIncludes prompt "hello" || jsIncludes prompt "hi" then
      "Hello there! How can I assist you today?"
    else if jsIncludes prompt "your name" then
      "You can call me " ++ twinState.name ++ "."
    else if (ctxGet vars "relevantMemory").truthy then
      "Based on what I know (\"" ++ jsSubstring (ctxGet vars "relevantMemory").toJSString 0 50 ++
        "...\"), how can I help?"
    else
      "(Simulated LLM response for: \"" ++ jsSubstring prompt 0 100 ++ "...\")"

/-- Helper `simulateToolUse` of the source: the calculator supports
`add` and `multiply`; any other tool (or operation) produces the
simulated placeholder naming the tool and echoing its arguments. -/
def simulateToolUse (toolName : String) (args : Ctx) : String :=
  if toolName = "calculator" then
    let operation := ctxGet args "operation"
    let num1 := ctxGet args "num1"
    let num2 := ctxGet args "num2"
    if operation = JVal.str "add" then (jsAdd num1 num2).toJSString
    else if operation = JVal.str "multiply" then (jsMul num1 num2).toJSString
    else "Simulated result for tool \x27" ++ toolName ++ "\x27 with args: " ++
      jsonStringifyCtx args ++ "."
  else
    "Simulated result for tool \x27" ++ toolName ++ "\x27 with args: " ++
      jsonStringifyCtx args ++ "."

/-- Relation used to sort rules: `a` may come before `b` when
`b.priority ≤ a.priority`, the stable descending order produced by
`[...]rules.sort((a, b) => b.priority - a.priority)`. -/
def ruleGE (a b : DecisionRule) : Prop := b.priority ≤ a.priority

instance : DecidableRel ruleGE :=
  fun a b => inferInstanceAs (Decidable (b.priority ≤ a.priority))

instance : IsTotal DecisionRule ruleGE :=
  ⟨fun a b => le_total b.priority a.priority⟩

instance : IsTrans DecisionRule ruleGE :=
  ⟨fun _ _ _ h1 h2 => le_trans h2 h1⟩

/-- Stable descending-priority sort of the rule list.  JavaScript
`Array.prototype.sort` is stable, and a stable sort for a total preorder
is unique, so insertion sort with `ruleGE` produces exactly the array the
source computes. -/
def sortRulesDesc (rules : List DecisionRule) : List DecisionRule :=
  rules.insertionSort ruleGE

/-- Action dispatch of the rule-evaluation loop (`switch (rule.actionType)`). -/
def dispatchAction (state : DigitalTwinState) (rule : DecisionRule) : String :=
  match rule.actionType with
  | .LLM_CALL =>
    simulateLLMCall state rule.actionPayload.promptName
      (jsSpread rule.actionPayload.vars state.currentStateContext)
  | .FIXED_RESPONSE => rule.actionPayload.fixedText
  | .TOOL_USE => simulateToolUse rule.actionPayload.toolName rule.actionPayload.args
  | t => "Rule triggered unhandled action: " ++ t.label

/-- Phase 1 of `simulateAgentProcessing`: set `currentInput`, clear the
decision path, rebuild the context fields and append the user record to
short-term memory. -/
def contextPhase (tUser : Int) (state : DigitalTwinState) (input : String) : DigitalTwinState :=
  let s1 := { state with currentInput := some input }
  let s2 := { s1 with lastDecisionPath := [] }
  let s3 := { s2 with currentStateContext := updateContextFromInput s2.currentStateContext input }
  { s3 with memory.shortTermMemory := s3.memory.shortTermMemory ++
      [({ timestamp := tUser, role := Role.user, content := input,
          sentiment := some (ctxGet s3.currentStateContext "sentiment"),
          keywords := none } : ShortTermMemoryEntry)] }

/-- Phase 2 of `simulateAgentProcessing`: memory retrieval; a truthy
(non-empty) retrieved content is injected under `relevantMemory` and the
`Memory_Retrieval` label is recorded. -/
def memoryPhase (state : DigitalTwinState) (input : String) : DigitalTwinState :=
  let relevantMemory := retrieveRelevantMemory state input
  if relevantMemory ≠ "" then
    { state with
        currentStateContext := ctxSet state.currentStateContext "relevantMemory" (.str relevantMemory),
        lastDecisionPath := state.lastDecisionPath ++ ["Memory_Retrieval"] }
  else state

/-- First rule of the sorted rule list whose condition evaluates truthy
against the state's context: the rule at which the evaluation loop of the
source fires and breaks (`none` when no condition matches). -/
def firedRule (condEval : CondEval) (state : DigitalTwinState) : Option DecisionRule :=
  (sortRulesDesc state.decisionLogic.rules).find?
    fun rule => evaluateCondition condEval rule.condition state.currentStateContext

/-- Phases 3-5 of `simulateAgentProcessing`: evaluate the sorted rules in
order; the first truthy condition fires (label + action dispatch) and the
loop breaks; otherwise the default LLM fallback runs.  Returns the state
with the recorded label together with the agent response. -/
def decisionPhase (condEval : CondEval) (state : DigitalTwinState) : DigitalTwinState × String :=
  match firedRule condEval state with
  | some rule =>
    ({ state with lastDecisionPath := state.lastDecisionPath ++ ["Decision_Rule: " ++ rule.name] },
      dispatchAction state rule)
  | none =>
    ({ state with lastDecisionPath := state.lastDecisionPath ++ ["Default_LLM_Fallback"] },
      simulateLLMCall state "default_response" state.currentStateContext)

/-- Phase 6 of `simulateAgentProcessing`: store the output, append the
agent record to short-term memory and bump `totalInteractions`. -/
def postPhase (tAgent : Int) (state : DigitalTwinState) (agentResponse : String) : DigitalTwinState :=
  let s1 := { state with currentOutput := some agentResponse }
  let s2 := { s1 with memory.shortTermMemory := s1.memory.shortTermMemory ++
      [({ timestamp := tAgent, role := Role.agent, content := agentResponse,
          sentiment := none, keywords := none } : ShortTermMemoryEntry)] }
  { s2 with performanceMetrics.totalInteractions := s2.performanceMetrics.totalInteractions + 1 }

/-- Phase 7 of `simulateAgentProcessing`: when reinforcement learning is
enabled and a feedback object was supplied (regardless of whether it
carries a reward), record the feedback label; nothing is ever added to
the experience buffer. -/
def feedbackPhase (state : DigitalTwinState) (environmentFeedback : Option Feedback) : DigitalTwinState :=
  match environmentFeedback with
  | some fb =>
    if state.reinforcementLearning.enabled then
      { state with lastDecisionPath := state.lastDecisionPath ++
          ["Reinforcement_Learning_Feedback (Reward: " ++ renderJSOptNum fb.reward ++ ")"] }
    else state
  | none => state

/-- The interaction processor `simulateAgentProcessing` of the source:
works on a (value-semantics) copy of the state and returns the updated
state with the output string. -/
def simulateAgentProcessing (condEval : CondEval) (tUser tAgent : Int)
    (twinState : DigitalTwinState) (input : String)
    (environmentFeedback : Option Feedback) : DigitalTwinState × String :=
  let s1 := contextPhase tUser twinState input
  let s2 := memoryPhase s1 input
  let sr := decisionPhase condEval s2
  let s4 := postPhase tAgent sr.1 sr.2
  let s5 := feedbackPhase s4 environmentFeedback
  (s5, sr.2)

/-- Controller `getTwinState`: `JSON.parse(JSON.stringify(state))`, the
identity on the modelled values. -/
def getTwinState (state : DigitalTwinState) : DigitalTwinState := state

/-- Controller `processInteraction`: runs the pipeline against the held
state, replaces the held state with the result and returns the output
together with a snapshot.  Result: (new held state, output, snapshot). -/
def processInteraction (condEval : CondEval) (tUser tAgent : Int)
    (held : DigitalTwinState) (input : String)
    (environmentFeedback : Option Feedback) : DigitalTwinState × String × DigitalTwinState :=
  let res := simulateAgentProcessing condEval tUser tAgent held input environmentFeedback
  (res.1, res.2, getTwinState res.1)

/-- Default twin state `getDefaultTwinState` of the source. -/
def getDefaultTwinState : DigitalTwinState :=
  { id := "CustomerSupportBot-v2-default"
    name := "SupportPro Agent"
    description := "A digital twin of a customer support agent."
    promptEngineering :=
      { templates :=
          [{ name := "default_response"
             template := "You are a helpful AI assistant. The user said: \x7b\x7binput\x7d\x7d. The relevant context is: \x7b\x7brelevantMemory\x7d\x7d"
             variableNames := ["input", "relevantMemory"] },
           { name := "greeting_response"
             template := "You are a friendly agent. Say hello to the user."
             variableNames := [] },
           { name := "name_inquiry_response"
             template := "Politely state your name."
             variableNames := [] }]
        llmConfig :=
          { modelName := "gemini-2.5-flash", temperature := 0.7, maxTokens := 256, topP := 1.0 } }
    decisionLogic :=
      { rules :=
          [{ name := "Greeting Rule"
             condition := "context.input.toLowerCase().includes(\x27hello\x27) || context.input.toLowerCase().includes(\x27hi\x27)"
             actionType := .LLM_CALL
             actionPayload := .llm "greeting_response" []
             priority := 10 },
           { name := "Name Inquiry Rule"
             condition := "context.input.toLowerCase().includes(\x27what is your name\x27)"
             actionType := .LLM_CALL
             actionPayload := .llm "name_inquiry_response" []
             priority := 10 },
           { name := "Negative Sentiment Rule"
             condition := "context.sentiment === \x27negative\x27"
             actionType := .FIXED_RESPONSE
             actionPayload := .fixed "I\x27m sorry to hear you\x27re having trouble. Let me see how I can help."
             priority := 5 }] }
    reinforcementLearning := { enabled := false, modelParams := none, currentExperienceBuffer := [] }
    planning :=
      { enabled := false, availableActions := none, currentGoal := none, activePlan := none,
        planExecutionState := none }
    memory :=
      { shortTermMemory := []
        longTermMemory :=
          { entries :=
              [{ id := "mem1", content := "The return policy is 30 days for a full refund."
                 embedding := none, metadata := some [("topic", .str "refunds")] }]
            vectorDBConfig := none } }
    currentInput := none
    currentOutput := none
    currentStateContext := []
    lastDecisionPath := []
    performanceMetrics := { totalInteractions := 0, successfulInteractions := 0, avgResponseTimeMs := 0 } }

/-- Controller `resetOperationalState`: clears the live fields, resets the
metrics to the pristine default and leaves all configuration in place. -/
def resetOperationalState (state : DigitalTwinState) : DigitalTwinState :=
  { state with
      currentInput := none
      currentOutput := none
      currentStateContext := []
      lastDecisionPath := []
      memory.shortTermMemory := []
      performanceMetrics := getDefaultTwinState.performanceMetrics }

/-! Test fixtures: concrete evaluator oracles and twin states used to
instantiate the theorems below. -/

/-- Oracle on which every condition evaluation throws (all conditions are
treated as non-matching). -/
def ceFalse : CondEval := fun _ _ => none

/-- Oracle on which every condition evaluates to `true`. -/
def ceTrue : CondEval := fun _ _ => some (.bool true)

/-- Minimal twin state: no templates, no rules, no memory entries. -/
def testBaseState : DigitalTwinState :=
  { id := "test", name := "TestTwin", description := ""
    promptEngineering :=
      { templates := []
        llmConfig := { modelName := "m", temperature := 0, maxTokens := 0, topP := 0 } }
    decisionLogic := { rules := [] }
    reinforcementLearning := { enabled := false, modelParams := none, currentExperienceBuffer := [] }
    planning :=
      { enabled := false, availableActions := none, currentGoal := none, activePlan := none,
        planExecutionState := none }
    memory := { shortTermMemory := [], longTermMemory := { entries := [], vectorDBConfig := none } }
    currentInput := none
    currentOutput := none
    currentStateContext := []
    lastDecisionPath := []
    performanceMetrics := { totalInteractions := 0, successfulInteractions := 0, avgResponseTimeMs := 0 } }

/-- Twin state holding exactly the return-policy long-term memory entry. -/
def testMemState : DigitalTwinState :=
  { testBaseState with memory.longTermMemory.entries :=
      [{ id := "mem1", content := "The return policy is 30 days for a full refund."
         embedding := none, metadata := none }] }

/-- Twin state with a single always-firing calculator TOOL_USE rule. -/
def testCalcState : DigitalTwinState :=
  { testBaseState with decisionLogic.rules :=
      [{ name := "Calc Rule", condition := "true", actionType := .TOOL_USE
         actionPayload := .tool "calculator"
           [("operation", .str "add"), ("num1", .num 2), ("num2", .num 3)]
         priority := 1 }] }

/-- Twin state with reinforcement learning enabled. -/
def testRLState : DigitalTwinState :=
  { testBaseState with reinforcementLearning.enabled := true }

/-- Twin state whose first long-term memory entry has empty content and
whose second entry is non-empty. -/
def testC10State : DigitalTwinState :=
  { testBaseState with memory.longTermMemory.entries :=
      [{ id := "a", content := "", embedding := none, metadata := none },
       { id := "b", content := "hello", embedding := none, metadata := none }] }

/-- Rule with an unhandled action type, for the dispatch theorems. -/
def testPlanRule : DecisionRule :=
  { name := "Plan Rule", condition := "true", actionType := .PLAN_EXECUTION
    actionPayload := .other, priority := 1 }

/-! Observers used to state the claims about decision-path labels. -/

/-- Predicate recognising a fired-rule trace label
`"Decision_Rule: \x7bname\x7d"`. -/
def isDecisionLabel (l : String) : Bool :=
  "Decision_Rule: ".data.isPrefixOf l.data

/-- Predicate recognising a reinforcement-learning feedback trace label. -/
def isRLLabel (l : String) : Bool :=
  "Reinforcement_Learning_Feedback (Reward: ".data.isPrefixOf l.data

/-- Decision label(s) contributed by the rule-evaluation phase for a
given fired rule. -/
def decisionLabels : Option DecisionRule → List String
  | some r => ["Decision_Rule: " ++ r.name]
  | none => []

/-! Basic lemmas about the JS-record helpers. -/

lemma ctxGet_ctxSet_self (c : Ctx) (k : String) (v : JVal) :
    ctxGet (ctxSet c k v) k = v := by
  induction c with
  | nil => simp [ctxGet, ctxSet]
  | cons kv rest ih =>
    by_cases h : kv.1 = k
    · simp [ctxSet, ctxGet, h]
    · simp [ctxSet, ctxGet, h, ih]

lemma jsIncludes_empty_needle (s : String) : jsIncludes s "" = true := by
  unfold jsIncludes
  cases h : s.data with
  | nil => simp [listInfix]
  | cons c rest => simp [listInfix, List.isPrefixOf]

lemma jsToLower_empty : jsToLower "" = "" := rfl

/-! Frame lemmas for the pipeline phases: which fields each phase leaves
unchanged, and the exact shape of the fields it updates. -/

lemma contextPhase_metrics (t : Int) (s : DigitalTwinState) (i : String) :
    (contextPhase t s i).performanceMetrics = s.performanceMetrics := rfl

lemma contextPhase_decisionLogic (t : Int) (s : DigitalTwinState) (i : String) :
    (contextPhase t s i).decisionLogic = s.decisionLogic := rfl

lemma contextPhase_ltm (t : Int) (s : DigitalTwinState) (i : String) :
    (contextPhase t s i).memory.longTermMemory = s.memory.longTermMemory := rfl

lemma contextPhase_rl (t : Int) (s : DigitalTwinState) (i : String) :
    (contextPhase t s i).reinforcementLearning = s.reinforcementLearning := rfl

lemma contextPhase_path (t : Int) (s : DigitalTwinState) (i : String) :
    (contextPhase t s i).lastDecisionPath = [] := rfl

lemma contextPhase_ctx (t : Int) (s : DigitalTwinState) (i : String) :
    (contextPhase t s i).currentStateContext = updateContextFromInput s.currentStateContext i := rfl

lemma contextPhase_stm (t : Int) (s : DigitalTwinState) (i : String) :
    (contextPhase t s i).memory.shortTermMemory = s.memory.shortTermMemory ++
      [{ timestamp := t, role := Role.user, content := i,
         sentiment := some (ctxGet (updateContextFromInput s.currentStateContext i) "sentiment"),
         keywords := none }] := rfl

lemma retrieveRelevantMemory_entries (s1 s2 : DigitalTwinState) (q : String)
    (h : s1.memory.longTermMemory.entries = s2.memory.longTermMemory.entries) :
    retrieveRelevantMemory s1 q = retrieveRelevantMemory s2 q := by
  unfold retrieveRelevantMemory
  rw [h]

lemma memoryPhase_metrics (s : DigitalTwinState) (i : String) :
    (memoryPhase s i).performanceMetrics = s.performanceMetrics := by
  simp only [memoryPhase]
  split <;> rfl

lemma memoryPhase_decisionLogic (s : DigitalTwinState) (i : String) :
    (memoryPhase s i).decisionLogic = s.decisionLogic := by
  simp only [memoryPhase]
  split <;> rfl

lemma memoryPhase_ltm (s : DigitalTwinState) (i : String) :
    (memoryPhase s i).memory.longTermMemory = s.memory.longTermMemory := by
  simp only [memoryPhase]
  split <;> rfl

lemma memoryPhase_rl (s : DigitalTwinState) (i : String) :
    (memoryPhase s i).reinforcementLearning = s.reinforcementLearning := by
  simp only [memoryPhase]
  split <;> rfl

lemma memoryPhase_stm (s : DigitalTwinState) (i : String) :
    (memoryPhase s i).memory.shortTermMemory = s.memory.shortTermMemory := by
  simp only [memoryPhase]
  split <;> rfl

lemma memoryPhase_path (s : DigitalTwinState) (i : String) :
    (memoryPhase s i).lastDecisionPath =
      if retrieveRelevantMemory s i ≠ "" then s.lastDecisionPath ++ ["Memory_Retrieval"]
      else s.lastDecisionPath := by
  simp only [memoryPhase]
  split <;> simp_all

lemma memoryPhase_ctx (s : DigitalTwinState) (i : String) :
    (memoryPhase s i).currentStateContext =
      if retrieveRelevantMemory s i ≠ "" then
        ctxSet s.currentStateContext "relevantMemory" (.str (retrieveRelevantMemory s i))
      else s.currentStateContext := by
  simp only [memoryPhase]
  split <;> simp_all

lemma decisionPhase_metrics (ce : CondEval) (s : DigitalTwinState) :
    (decisionPhase ce s).1.performanceMetrics = s.performanceMetrics := by
  unfold decisionPhase
  rcases firedRule ce s <;> rfl

lemma decisionPhase_stm (ce : CondEval) (s : DigitalTwinState) :
    (decisionPhase ce s).1.memory.shortTermMemory = s.memory.shortTermMemory := by
  unfold decisionPhase
  rcases firedRule ce s <;> rfl

lemma decisionPhase_rl (ce : CondEval) (s : DigitalTwinState) :
    (decisionPhase ce s).1.reinforcementLearning = s.reinforcementLearning := by
  unfold decisionPhase
  rcases firedRule ce s <;> rfl

lemma decisionPhase_ctx (ce : CondEval) (s : DigitalTwinState) :
    (decisionPhase ce s).1.currentStateContext = s.currentStateContext := by
  unfold decisionPhase
  rcases firedRule ce s <;> rfl

lemma decisionPhase_path (ce : CondEval) (s : DigitalTwinState) :
    (decisionPhase ce s).1.lastDecisionPath = s.lastDecisionPath ++
      (match firedRule ce s with
        | some r => ["Decision_Rule: " ++ r.name]
        | none => ["Default_LLM_Fallback"]) := by
  unfold decisionPhase
  rcases firedRule ce s <;> rfl

lemma postPhase_total (t : Int) (s : DigitalTwinState) (r : String) :
    (postPhase t s r).performanceMetrics.totalInteractions
      = s.performanceMetrics.totalInteractions + 1 := rfl

lemma postPhase_path (t : Int) (s : DigitalTwinState) (r : String) :
    (postPhase t s r).lastDecisionPath = s.lastDecisionPath := rfl

lemma postPhase_ctx (t : Int) (s : DigitalTwinState) (r : String) :
    (postPhase t s r).currentStateContext = s.currentStateContext := rfl

lemma postPhase_rl (t : Int) (s : DigitalTwinState) (r : String) :
    (postPhase t s r).reinforcementLearning = s.reinforcementLearning := rfl

lemma postPhase_enabled (t : Int) (s : DigitalTwinState) (r : String) :
    (postPhase t s r).reinforcementLearning.enabled = s.reinforcementLearning.enabled := rfl

lemma postPhase_stm (t : Int) (s : DigitalTwinState) (r : String) :
    (postPhase t s r).memory.shortTermMemory = s.memory.shortTermMemory ++
      [{ timestamp := t, role := Role.agent, content := r, sentiment := none, keywords := none }] := rfl

/-- Suffix the feedback phase appends to the decision path. -/
def rlSuffix (enabled : Bool) : Option Feedback → List String
  | some fb =>
    if enabled then ["Reinforcement_Learning_Feedback (Reward: " ++ renderJSOptNum fb.reward ++ ")"]
    else []
  | none => []

lemma feedbackPhase_path (s : DigitalTwinState) (fb : Option Feedback) :
    (feedbackPhase s fb).lastDecisionPath
      = s.lastDecisionPath ++ rlSuffix s.reinforcementLearning.enabled fb := by
  unfold feedbackPhase rlSuffix
  cases fb with
  | none => simp
  | some f => cases h : s.reinforcementLearning.enabled <;> simp [h]

lemma feedbackPhase_metrics (s : DigitalTwinState) (fb : Option Feedback) :
    (feedbackPhase s fb).performanceMetrics = s.performanceMetrics := by
  unfold feedbackPhase
  cases fb with
  | none => rfl
  | some f => cases h : s.reinforcementLearning.enabled <;> simp [h]

lemma feedbackPhase_stm (s : DigitalTwinState) (fb : Option Feedback) :
    (feedbackPhase s fb).memory.shortTermMemory = s.memory.shortTermMemory := by
  unfold feedbackPhase
  cases fb with
  | none => rfl
  | some f => cases h : s.reinforcementLearning.enabled <;> simp [h]

lemma feedbackPhase_ctx (s : DigitalTwinState) (fb : Option Feedback) :
    (feedbackPhase s fb).currentStateContext = s.currentStateContext := by
  unfold feedbackPhase
  cases fb with
  | none => rfl
  | some f => cases h : s.reinforcementLearning.enabled <;> simp [h]

lemma feedbackPhase_rl (s : DigitalTwinState) (fb : Option Feedback) :
    (feedbackPhase s fb).reinforcementLearning = s.reinforcementLearning := by
  unfold feedbackPhase
  cases fb with
  | none => rfl
  | some f => cases h : s.reinforcementLearning.enabled <;> simp [h]

/-- Decomposition of the processor into its phases (definitional). -/
lemma simulate_eq (ce : CondEval) (tU tA : Int) (s : DigitalTwinState) (i : String)
    (fb : Option Feedback) :
    simulateAgentProcessing ce tU tA s i fb
      = (feedbackPhase
          (postPhase tA (decisionPhase ce (memoryPhase (contextPhase tU s i) i)).1
            (decisionPhase ce (memoryPhase (contextPhase tU s i) i)).2) fb,
        (decisionPhase ce (memoryPhase (contextPhase tU s i) i)).2) := rfl

/-! Lemmas about the stable descending sort of the rule list. -/

lemma filter_orderedInsert (p : Int) (a : DecisionRule) (l : List DecisionRule) :
    (List.orderedInsert ruleGE a l).filter (fun r => r.priority == p)
      = ((a :: l).filter fun r => r.priority == p) := by
  induction l with
  | nil => rfl
  | cons b t ih =>
    by_cases h : ruleGE a b
    · simp [List.orderedInsert, h]
    · have hab : a.priority < b.priority := lt_of_not_le h
      rw [List.orderedInsert, if_neg h]
      rcases eq_or_ne b.priority p with hb | hb
      · have ha : (a.priority == p) = false := by
          subst hb
          simp [Int.ne_of_lt hab]
        simp only [List.filter_cons, ha, beq_self_eq_true, if_pos, if_neg] at *
        simp [hb, ha, ih]
      · simp only [List.filter_cons] at *
        simp [hb, ih]

lemma filter_sortRulesDesc (p : Int) (l : List DecisionRule) :
    (sortRulesDesc l).filter (fun r => r.priority == p)
      = (l.filter fun r => r.priority == p) := by
  induction l with
  | nil => rfl
  | cons a t ih =>
    unfold sortRulesDesc at *
    rw [List.insertionSort, filter_orderedInsert]
    simp only [List.filter_cons]
    rw [ih]

/-! Lemmas about the trace-label observers. -/

lemma isPrefixOf_append_self (a b : List Char) : a.isPrefixOf (a ++ b) = true := by
  induction a with
  | nil => simp [List.isPrefixOf]
  | cons c t ih => simp [List.isPrefixOf, ih]

lemma isDecisionLabel_name (n : String) :
    isDecisionLabel ("Decision_Rule: " ++ n) = true := by
  unfold isDecisionLabel
  rw [String.data_append]
  exact isPrefixOf_append_self _ _

lemma isDecisionLabel_rl (x y : String) :
    isDecisionLabel ("Reinforcement_Learning_Feedback (Reward: " ++ x ++ y) = false := by
  unfold isDecisionLabel
  rw [String.data_append, String.data_append]
  have h1 : "Decision_Rule: ".data = 'D' :: "ecision_Rule: ".data := rfl
  have h2 : "Reinforcement_Learning_Feedback (Reward: ".data
      = 'R' :: "einforcement_Learning_Feedback (Reward: ".data := rfl
  rw [h1, h2, List.cons_append, List.cons_append]
  simp [List.isPrefixOf, show ('D' == 'R') = false from rfl]

lemma isRLLabel_self (x y : String) :
    isRLLabel ("Reinforcement_Learning_Feedback (Reward: " ++ x ++ y) = true := by
  unfold isRLLabel
  rw [String.data_append, String.data_append, List.append_assoc]
  exact isPrefixOf_append_self _ _

lemma isRLLabel_decision (n : String) :
    isRLLabel ("Decision_Rule: " ++ n) = false := by
  unfold isRLLabel
  rw [String.data_append]
  have h1 : "Reinforcement_Learning_Feedback (Reward: ".data
      = 'R' :: "einforcement_Learning_Feedback (Reward: ".data := rfl
  have h2 : "Decision_Rule: ".data = 'D' :: "ecision_Rule: ".data := rfl
  rw [h1, h2, List.cons_append]
  simp [List.isPrefixOf, show ('R' == 'D') = false from rfl]

lemma rlSuffix_label (enabled : Bool) (fb : Option Feedback) :
    rlSuffix enabled fb = [] ∨
      ∃ f : Feedback, fb = some f ∧ enabled = true ∧
        rlSuffix enabled fb
          = ["Reinforcement_Learning_Feedback (Reward: " ++ renderJSOptNum f.reward ++ ")"] := by
  cases fb with
  | none => exact Or.inl rfl
  | some f =>
    cases h : enabled with
    | false => exact Or.inl (by simp [rlSuffix])
    | true => exact Or.inr ⟨f, rfl, rfl, by simp [rlSuffix]⟩

/-! Relation between `find?` and `filter` used for memory retrieval. -/

lemma find?_eq_head?_filter {α : Type} (p : α → Bool) (l : List α) :
    l.find? p = (l.filter p).head? := by
  induction l with
  | nil => rfl
  | cons a t ih =>
    cases h : p a
    · rw [List.find?_cons_of_neg _ (by simp [h]), List.filter_cons_of_neg (by simp [h]), ih]
    · rw [List.find?_cons_of_pos _ (by simp [h]), List.filter_cons_of_pos (by simp [h])]
      rfl

lemma isDecisionLabel_mem : isDecisionLabel "Memory_Retrieval" = false := by decide

lemma isDecisionLabel_fallback : isDecisionLabel "Default_LLM_Fallback" = false := by decide

lemma isRLLabel_mem : isRLLabel "Memory_Retrieval" = false := by decide

lemma isRLLabel_fallback : isRLLabel "Default_LLM_Fallback" = false := by decide

/-- Exact shape of the decision path produced by one interaction: an
optional memory-retrieval label, then exactly one decision label (fired
rule or fallback), then an optional reinforcement-learning label. -/
lemma simulate_path (ce : CondEval) (tU tA : Int) (s : DigitalTwinState) (i : String)
    (fb : Option Feedback) :
    (simulateAgentProcessing ce tU tA s i fb).1.lastDecisionPath
      = (if retrieveRelevantMemory s i ≠ "" then ["Memory_Retrieval"] else [])
        ++ (match firedRule ce (memoryPhase (contextPhase tU s i) i) with
            | some r => ["Decision_Rule: " ++ r.name]
            | none => ["Default_LLM_Fallback"])
        ++ rlSuffix s.reinforcementLearning.enabled fb := by
  have hm : retrieveRelevantMemory (contextPhase tU s i) i = retrieveRelevantMemory s i :=
    retrieveRelevantMemory_entries _ _ _ (by rw [contextPhase_ltm])
  have hen : (postPhase tA (decisionPhase ce (memoryPhase (contextPhase tU s i) i)).1
        (decisionPhase ce (memoryPhase (contextPhase tU s i) i)).2).reinforcementLearning.enabled
      = s.reinforcementLearning.enabled := by
    rw [postPhase_rl, decisionPhase_rl, memoryPhase_rl, contextPhase_rl]
  rw [show (simulateAgentProcessing ce tU tA s i fb).1
      = feedbackPhase
          (postPhase tA (decisionPhase ce (memoryPhase (contextPhase tU s i) i)).1
            (decisionPhase ce (memoryPhase (contextPhase tU s i) i)).2) fb from rfl]
  rw [feedbackPhase_path, hen, postPhase_path, decisionPhase_path, memoryPhase_path,
    contextPhase_path, hm]
  by_cases h : retrieveRelevantMemory s i ≠ "" <;> simp [h]

/-- Claim C1 (amended): `processInteraction` performs no emptiness check;
for every input, including the empty or whitespace-only ones, the
pipeline runs against the held state: `totalInteractions` grows by one
and a user record plus an agent record are appended to short-term
memory. -/
theorem C1_no_validation (ce : CondEval) (tU tA : Int) (s : DigitalTwinState) (input : String)
    (fb : Option Feedback) :
    (processInteraction ce tU tA s input fb).1.performanceMetrics.totalInteractions
        = s.performanceMetrics.totalInteractions + 1 ∧
    ∃ userRec agentRec : ShortTermMemoryEntry,
      (processInteraction ce tU tA s input fb).1.memory.shortTermMemory
          = s.memory.shortTermMemory ++ [userRec, agentRec] ∧
      userRec.role = Role.user ∧ userRec.content = input ∧ agentRec.role = Role.agent ∧
      agentRec.content = (processInteraction ce tU tA s input fb).2.1 := by
  constructor
  · rw [show (processInteraction ce tU tA s input fb).1
        = feedbackPhase
            (postPhase tA (decisionPhase ce (memoryPhase (contextPhase tU s input) input)).1
              (decisionPhase ce (memoryPhase (contextPhase tU s input) input)).2) fb from rfl]
    rw [feedbackPhase_metrics, postPhase_total, decisionPhase_metrics, memoryPhase_metrics,
      contextPhase_metrics]
  · refine ⟨⟨tU, Role.user, input,
        some (ctxGet (updateContextFromInput s.currentStateContext input) "sentiment"), none⟩,
      ⟨tA, Role.agent, (decisionPhase ce (memoryPhase (contextPhase tU s input) input)).2,
        none, none⟩, ?_, rfl, rfl, rfl, rfl⟩
    rw [show (processInteraction ce tU tA s input fb).1
        = feedbackPhase
            (postPhase tA (decisionPhase ce (memoryPhase (contextPhase tU s input) input)).1
              (decisionPhase ce (memoryPhase (contextPhase tU s input) input)).2) fb from rfl]
    rw [feedbackPhase_stm, postPhase_stm, decisionPhase_stm, memoryPhase_stm, contextPhase_stm,
      List.append_assoc]
    rfl

/-- Claim C1 (counterexample to the claim as stated): processing the
empty input against the minimal state is not rejected; the pipeline runs,
`totalInteractions` increases and two short-term-memory records are
appended, so the held state does change. -/
theorem C1_counterexample :
    (processInteraction ceFalse 0 0 testBaseState "" none).1.performanceMetrics.totalInteractions
        = testBaseState.performanceMetrics.totalInteractions + 1 ∧
    (processInteraction ceFalse 0 0 testBaseState "" none).1.memory.shortTermMemory.length = 2 ∧
    testBaseState.memory.shortTermMemory.length = 0 := by decide

/-- Claim C2 (counterexample to the claim as stated): with the
return-policy entry in long-term memory, processing the input
"What is your return policy?" does NOT record `Memory_Retrieval` and does
not inject the entry content, because the code requires the whole input
to be a case-insensitive substring of the entry content. -/
theorem C2_counterexample :
    testMemState.memory.longTermMemory.entries.map LongTermMemoryEntry.content
        = ["The return policy is 30 days for a full refund."] ∧
    "Memory_Retrieval" ∉
      (simulateAgentProcessing ceFalse 0 0 testMemState "What is your return policy?" none).1.lastDecisionPath ∧
    ctxGet (simulateAgentProcessing ceFalse 0 0 testMemState
        "What is your return policy?" none).1.currentStateContext "relevantMemory"
      = JVal.undef := by decide

/-- Claim C2 (amended): retrieval fires only when the input is a
case-insensitive substring of the entry content.  For the input
"return policy" (which is such a substring) the stage label
`Memory_Retrieval` is recorded and the entry content is injected under
`relevantMemory`; the original input "What is your return policy?" is not
a substring of the content, so nothing is retrieved for it. -/
theorem C2_memory_injection_substring :
    jsIncludes (jsToLower "The return policy is 30 days for a full refund.")
        (jsToLower "return policy") = true ∧
    "Memory_Retrieval" ∈
      (simulateAgentProcessing ceFalse 0 0 testMemState "return policy" none).1.lastDecisionPath ∧
    ctxGet (simulateAgentProcessing ceFalse 0 0 testMemState
        "return policy" none).1.currentStateContext "relevantMemory"
      = JVal.str "The return policy is 30 days for a full refund." ∧
    jsIncludes (jsToLower "The return policy is 30 days for a full refund.")
        (jsToLower "What is your return policy?") = false := by decide

/-- Claim C3: rules are evaluated in descending priority order with ties
broken by original list position (stable sort); the rule list reaching
the evaluation loop is the configured one; the decision labels of the
resulting path are exactly those of the first rule of the sorted list
whose condition evaluates truthy (so evaluation stops at the first
match); and at most one decision-rule label is recorded per
interaction. -/
theorem C3_rule_evaluation_order (ce : CondEval) (tU tA : Int) (s : DigitalTwinState)
    (input : String) (fb : Option Feedback) :
    List.Sorted ruleGE (sortRulesDesc s.decisionLogic.rules) ∧
    (∀ p : Int, ((sortRulesDesc s.decisionLogic.rules).filter fun r => r.priority == p)
        = (s.decisionLogic.rules.filter fun r => r.priority == p)) ∧
    (memoryPhase (contextPhase tU s input) input).decisionLogic.rules = s.decisionLogic.rules ∧
    ((simulateAgentProcessing ce tU tA s input fb).1.lastDecisionPath.filter isDecisionLabel
        = decisionLabels (firedRule ce (memoryPhase (contextPhase tU s input) input))) ∧
    (simulateAgentProcessing ce tU tA s input fb).1.lastDecisionPath.countP isDecisionLabel ≤ 1 := by
  have hfilter : (simulateAgentProcessing ce tU tA s input fb).1.lastDecisionPath.filter isDecisionLabel
      = decisionLabels (firedRule ce (memoryPhase (contextPhase tU s input) input)) := by
    rw [simulate_path, List.filter_append, List.filter_append]
    have h1 : List.filter isDecisionLabel
        (if retrieveRelevantMemory s input ≠ "" then ["Memory_Retrieval"] else []) = [] := by
      split <;> simp [List.filter, isDecisionLabel_mem]
    have h2 : List.filter isDecisionLabel
        (match firedRule ce (memoryPhase (contextPhase tU s input) input) with
          | some r => ["Decision_Rule: " ++ r.name]
          | none => ["Default_LLM_Fallback"])
        = decisionLabels (firedRule ce (memoryPhase (contextPhase tU s input) input)) := by
      cases firedRule ce (memoryPhase (contextPhase tU s input) input) with
      | none => simp [decisionLabels, List.filter, isDecisionLabel_fallback]
      | some r => simp [decisionLabels, List.filter, isDecisionLabel_name r.name]
    have h3 : List.filter isDecisionLabel (rlSuffix s.reinforcementLearning.enabled fb) = [] := by
      rcases rlSuffix_label s.reinforcementLearning.enabled fb with h | ⟨f, _, _, h⟩ <;>
        rw [h] <;> simp [List.filter, isDecisionLabel_rl]
    rw [h1, h2, h3, List.append_nil, List.nil_append]
  refine ⟨?_, ?_, ?_, hfilter, ?_⟩
  · unfold sortRulesDesc
    exact List.sorted_insertionSort ruleGE s.decisionLogic.rules
  · intro p
    exact filter_sortRulesDesc p s.decisionLogic.rules
  · rw [memoryPhase_decisionLogic, contextPhase_decisionLogic]
  · rw [List.countP_eq_length_filter, hfilter]
    cases firedRule ce (memoryPhase (contextPhase tU s input) input) <;> simp [decisionLabels]

/-- Claim C4: error handling of the pipeline.  A rule condition whose
evaluation throws is treated as false and evaluation continues with the
remaining rules; an unknown prompt template yields the descriptive inline
error string; an unknown tool yields the placeholder naming the tool and
echoing its arguments; an unhandled action type (PLAN_EXECUTION or
MEMORY_QUERY) yields the labelled unhandled-action response — in every
case a text output is produced, never an exception. -/
theorem C4_error_handling :
    (∀ (ce : CondEval) (cond : String) (ctx : Ctx),
      ce cond ctx = none → evaluateCondition ce cond ctx = false) ∧
    (∀ (ce : CondEval) (ctx : Ctx) (r : DecisionRule) (rs : List DecisionRule),
      ce r.condition ctx = none →
      ((r :: rs).find? fun x => evaluateCondition ce x.condition ctx)
        = (rs.find? fun x => evaluateCondition ce x.condition ctx)) ∧
    (∀ (s : DigitalTwinState) (templateName : String) (vars : Ctx),
      (∀ t ∈ s.promptEngineering.templates, t.name ≠ templateName) →
      simulateLLMCall s templateName vars
        = "Error: Prompt template \x27" ++ templateName ++ "\x27 not found.") ∧
    (∀ (toolName : String) (args : Ctx), toolName ≠ "calculator" →
      simulateToolUse toolName args
        = "Simulated result for tool \x27" ++ toolName ++ "\x27 with args: " ++
          jsonStringifyCtx args ++ ".") ∧
    (∀ (s : DigitalTwinState) (r : DecisionRule),
      r.actionType = ActionType.PLAN_EXECUTION ∨ r.actionType = ActionType.MEMORY_QUERY →
      dispatchAction s r = "Rule triggered unhandled action: " ++ r.actionType.label) := by
  refine ⟨?_, ?_, ?_, ?_, ?_⟩
  · intro ce cond ctx h
    unfold evaluateCondition
    rw [h]
  · intro ce ctx r rs h
    exact List.find?_cons_of_neg _ (by simp [evaluateCondition, h])
  · intro s templateName vars h
    unfold simulateLLMCall
    rw [show s.promptEngineering.templates.find? (fun t => t.name == templateName) = none from
      List.find?_eq_none.mpr fun t ht => by simp [h t ht]]
  · intro toolName args h
    unfold simulateToolUse
    rw [if_neg h]
  · intro s r h
    unfold dispatchAction
    rcases h with h | h <;> rw [h]

/-- Witness for C4 at concrete inputs. -/
theorem C4_witness :
    evaluateCondition ceFalse "context.foo >" [] = false ∧
    simulateLLMCall testBaseState "nope" [] = "Error: Prompt template \x27nope\x27 not found." ∧
    simulateToolUse "weather" [("city", JVal.str "Paris")]
      = "Simulated result for tool \x27weather\x27 with args: \x7b\"city\":\"Paris\"\x7d." ∧
    dispatchAction testBaseState testPlanRule
      = "Rule triggered unhandled action: PLAN_EXECUTION" := by
  refine ⟨C4_error_handling.1 ceFalse "context.foo >" [] rfl, ?_, ?_, ?_⟩
  · exact (C4_error_handling.2.2.1 testBaseState "nope" [] (by decide)).trans (by decide)
  · exact (C4_error_handling.2.2.2.1 "weather" [("city", JVal.str "Paris")] (by decide)).trans
      (by decide)
  · exact (C4_error_handling.2.2.2.2 testBaseState testPlanRule (Or.inl rfl)).trans (by decide)

/-- Claim C6: `resetOperationalState` clears the live fields, resets the
metrics to the zero-valued default, and leaves every configuration and
identity field exactly as before the call. -/
theorem C6_reset_scope (s : DigitalTwinState) :
    (resetOperationalState s).currentInput = none ∧
    (resetOperationalState s).currentOutput = none ∧
    (resetOperationalState s).currentStateContext = [] ∧
    (resetOperationalState s).lastDecisionPath = [] ∧
    (resetOperationalState s).memory.shortTermMemory = [] ∧
    (resetOperationalState s).performanceMetrics
      = { totalInteractions := 0, successfulInteractions := 0, avgResponseTimeMs := 0 } ∧
    (resetOperationalState s).promptEngineering = s.promptEngineering ∧
    (resetOperationalState s).decisionLogic = s.decisionLogic ∧
    (resetOperationalState s).memory.longTermMemory = s.memory.longTermMemory ∧
    (resetOperationalState s).reinforcementLearning = s.reinforcementLearning ∧
    (resetOperationalState s).planning = s.planning ∧
    (resetOperationalState s).id = s.id ∧
    (resetOperationalState s).name = s.name ∧
    (resetOperationalState s).description = s.description :=
  ⟨rfl, rfl, rfl, rfl, rfl, rfl, rfl, rfl, rfl, rfl, rfl, rfl, rfl, rfl⟩

/-- Claim C7: the calculator tool.  End to end, a TOOL_USE rule firing
with payload add/2/3 produces the output "5"; in general, for numeric
arguments the calculator returns the exact numeric result of `add` or
`multiply` rendered as text, and any other tool name returns the
simulated placeholder naming the tool and echoing its arguments. -/
theorem C7_calculator :
    (simulateAgentProcessing ceTrue 0 0 testCalcState "2 plus 3" none).2 = "5" ∧
    (∀ (a b : Int) (args : Ctx),
      ctxGet args "operation" = JVal.str "add" → ctxGet args "num1" = JVal.num a →
      ctxGet args "num2" = JVal.num b →
      simulateToolUse "calculator" args = toString (a + b)) ∧
    (∀ (a b : Int) (args : Ctx),
      ctxGet args "operation" = JVal.str "multiply" → ctxGet args "num1" = JVal.num a →
      ctxGet args "num2" = JVal.num b →
      simulateToolUse "calculator" args = toString (a * b)) ∧
    (∀ (toolName : String) (args : Ctx), toolName ≠ "calculator" →
      simulateToolUse toolName args
        = "Simulated result for tool \x27" ++ toolName ++ "\x27 with args: " ++
          jsonStringifyCtx args ++ ".") := by
  refine ⟨by decide, ?_, ?_, ?_⟩
  · intro a b args hop h1 h2
    simp only [simulateToolUse, if_pos rfl]
    rw [hop, h1, h2]
    simp [jsAdd, JVal.toJSString]
  · intro a b args hop h1 h2
    simp only [simulateToolUse, if_pos rfl]
    rw [hop, h1, h2]
    simp [jsMul, JVal.toJSString]
  · intro toolName args h
    unfold simulateToolUse
    rw [if_neg h]

/-- Witness for C7 at concrete inputs. -/
theorem C7_witness :
    simulateToolUse "calculator"
        [("operation", JVal.str "add"), ("num1", JVal.num 2), ("num2", JVal.num 3)] = "5" ∧
    simulateToolUse "calculator"
        [("operation", JVal.str "multiply"), ("num1", JVal.num 4), ("num2", JVal.num 5)] = "20" ∧
    simulateToolUse "weather" [] = "Simulated result for tool \x27weather\x27 with args: \x7b\x7d." := by
  refine ⟨?_, ?_, ?_⟩
  · exact (C7_calculator.2.1 2 3 [("operation", JVal.str "add"), ("num1", JVal.num 2),
      ("num2", JVal.num 3)] (by decide) (by decide) (by decide)).trans (by decide)
  · exact (C7_calculator.2.2.1 4 5 [("operation", JVal.str "multiply"), ("num1", JVal.num 4),
      ("num2", JVal.num 5)] (by decide) (by decide) (by decide)).trans (by decide)
  · exact (C7_calculator.2.2.2 "weather" [] (by decide)).trans (by decide)

/-- Claim C8 (counterexample to the claim as stated): with reinforcement
learning enabled, supplying a feedback object WITHOUT a reward value
still appends the feedback label (rendering the missing reward as
"undefined"), because the source only tests that a feedback object was
supplied. -/
theorem C8_counterexample :
    testRLState.reinforcementLearning.enabled = true ∧
    (simulateAgentProcessing ceFalse 0 0 testRLState "hello there"
        (some { reward := none })).1.lastDecisionPath.getLast?
      = some "Reinforcement_Learning_Feedback (Reward: undefined)" := by decide

/-- Claim C8 (amended): the feedback label is appended, as the final
element of the decision path, exactly when reinforcement learning is
enabled and a feedback object was supplied — whether or not it carries a
reward value, a missing reward rendering as "undefined"; otherwise no
reinforcement-learning label appears anywhere in the path; and in no case
is an experience record appended to the RL buffer. -/
theorem C8_feedback_label (ce : CondEval) (tU tA : Int) (s : DigitalTwinState) (input : String)
    (fb : Option Feedback) :
    (∀ f : Feedback, s.reinforcementLearning.enabled = true → fb = some f →
      (simulateAgentProcessing ce tU tA s input fb).1.lastDecisionPath.getLast?
        = some ("Reinforcement_Learning_Feedback (Reward: " ++ renderJSOptNum f.reward ++ ")")) ∧
    (s.reinforcementLearning.enabled = false ∨ fb = none →
      ∀ l ∈ (simulateAgentProcessing ce tU tA s input fb).1.lastDecisionPath,
        isRLLabel l = false) ∧
    (simulateAgentProcessing ce tU tA s input fb).1.reinforcementLearning.currentExperienceBuffer
      = s.reinforcementLearning.currentExperienceBuffer := by
  refine ⟨?_, ?_, ?_⟩
  · intro f hen hfb
    rw [simulate_path, hfb, hen]
    rw [show rlSuffix true (some f)
        = ["Reinforcement_Learning_Feedback (Reward: " ++ renderJSOptNum f.reward ++ ")"]
      from by simp [rlSuffix]]
    exact List.getLast?_concat _
  · intro h l hl
    rw [simulate_path] at hl
    have hsuf : rlSuffix s.reinforcementLearning.enabled fb = [] := by
      rcases h with h | h
      · rw [h]
        cases fb <;> simp [rlSuffix]
      · rw [h]
        simp [rlSuffix]
    rw [hsuf, List.append_nil] at hl
    rcases List.mem_append.mp hl with h1 | h2
    · by_cases hP : retrieveRelevantMemory s input ≠ ""
      · rw [if_pos hP] at h1
        simp at h1
        rw [h1]
        exact isRLLabel_mem
      · rw [if_neg hP] at h1
        simp at h1
    · cases hf : firedRule ce (memoryPhase (contextPhase tU s input) input) with
      | some r =>
        rw [hf] at h2
        simp at h2
        rw [h2]
        exact isRLLabel_decision r.name
      | none =>
        rw [hf] at h2
        simp at h2
        rw [h2]
        exact isRLLabel_fallback
  · rw [show (simulateAgentProcessing ce tU tA s input fb).1
        = feedbackPhase
            (postPhase tA (decisionPhase ce (memoryPhase (contextPhase tU s input) input)).1
              (decisionPhase ce (memoryPhase (contextPhase tU s input) input)).2) fb from rfl]
    rw [feedbackPhase_rl, postPhase_rl, decisionPhase_rl, memoryPhase_rl, contextPhase_rl]

/-- Witness for C8 at concrete inputs. -/
theorem C8_witness :
    (simulateAgentProcessing ceFalse 0 0 testRLState "hi there"
        (some { reward := some 1 })).1.lastDecisionPath.getLast?
      = some "Reinforcement_Learning_Feedback (Reward: 1)" ∧
    (simulateAgentProcessing ceFalse 0 0 testRLState "hi there"
        (some { reward := some 1 })).1.reinforcementLearning.currentExperienceBuffer
      = testRLState.reinforcementLearning.currentExperienceBuffer := by
  constructor
  · have h := (C8_feedback_label ceFalse 0 0 testRLState "hi there"
      (some { reward := some 1 })).1 { reward := some 1 } (by decide) rfl
    rw [h]
    decide
  · exact (C8_feedback_label ceFalse 0 0 testRLState "hi there" (some { reward := some 1 })).2.2

/-- Claim C9: the positive-cue check takes precedence — an input
containing a positive cue word is classified "positive" even when it also
contains a negative cue word. -/
theorem C9_positive_precedence (ctx : Ctx) (input : String)
    (hp : jsIncludes input "great" = true ∨ jsIncludes input "good" = true)
    (_hn : jsIncludes input "bad" = true ∨ jsIncludes input "terrible" = true) :
    ctxGet (updateContextFromInput ctx input) "sentiment" = JVal.str "positive" := by
  simp only [updateContextFromInput]
  rw [ctxGet_ctxSet_self]
  rcases hp with h | h <;> simp [h]

/-- Witness for C9 at a concrete input containing both cue words. -/
theorem C9_witness :
    ctxGet (updateContextFromInput [] "great terrible") "sentiment" = JVal.str "positive" :=
  C9_positive_precedence [] "great terrible" (Or.inl (by decide)) (Or.inr (by decide))

/-- Shared helper: when the retrieval helper returns a non-empty content,
the pipeline records `Memory_Retrieval` and injects the content under
`relevantMemory`. -/
lemma memory_injection (ce : CondEval) (tU tA : Int) (s : DigitalTwinState) (input : String)
    (fb : Option Feedback) (h : retrieveRelevantMemory s input ≠ "") :
    "Memory_Retrieval" ∈ (simulateAgentProcessing ce tU tA s input fb).1.lastDecisionPath ∧
    ctxGet (simulateAgentProcessing ce tU tA s input fb).1.currentStateContext "relevantMemory"
      = JVal.str (retrieveRelevantMemory s input) := by
  have hm : retrieveRelevantMemory (contextPhase tU s input) input
      = retrieveRelevantMemory s input :=
    retrieveRelevantMemory_entries _ _ _ (by rw [contextPhase_ltm])
  constructor
  · rw [simulate_path, if_pos h]
    exact List.mem_append.mpr (Or.inl (List.mem_append.mpr (Or.inl (by simp))))
  · rw [show (simulateAgentProcessing ce tU tA s input fb).1
        = feedbackPhase
            (postPhase tA (decisionPhase ce (memoryPhase (contextPhase tU s input) input)).1
              (decisionPhase ce (memoryPhase (contextPhase tU s input) input)).2) fb from rfl]
    rw [feedbackPhase_ctx, postPhase_ctx, decisionPhase_ctx, memoryPhase_ctx, hm, if_pos h,
      ctxGet_ctxSet_self]

/-- Retrieval against the empty query: every entry matches, so the result
is the content of the first entry of the list (or empty). -/
lemma retrieveRelevantMemory_empty_query (s : DigitalTwinState) :
    retrieveRelevantMemory s ""
      = (match s.memory.longTermMemory.entries with
          | [] => ""
          | e :: _ => e.content) := by
  have hall : ∀ e ∈ s.memory.longTermMemory.entries,
      (fun entry => jsIncludes (jsToLower entry.content) (jsToLower "")) e = true :=
    fun e _ => jsIncludes_empty_needle _
  unfold retrieveRelevantMemory
  rw [List.filter_eq_self.mpr hall]

/-- Retrieval returns the content of the first entry matched by `find?`. -/
lemma retrieveRelevantMemory_find? (s : DigitalTwinState) (input : String)
    (e : LongTermMemoryEntry)
    (h : (s.memory.longTermMemory.entries.find?
        fun x => jsIncludes (jsToLower x.content) (jsToLower input)) = some e) :
    retrieveRelevantMemory s input = e.content := by
  rw [find?_eq_head?_filter] at h
  unfold retrieveRelevantMemory
  cases hf : s.memory.longTermMemory.entries.filter
      (fun x => jsIncludes (jsToLower x.content) (jsToLower input)) with
  | nil =>
    rw [hf] at h
    exact absurd h (by simp)
  | cons x t =>
    rw [hf] at h
    simp at h
    rw [h]

/-- Claim C10 (counterexample to the claim as stated): for the empty
input and an entry list whose FIRST entry has empty content while a later
entry is non-empty, nothing is surfaced at all — the code takes the first
entry of the filtered list (here the empty one) and its empty content is
falsy, so no `Memory_Retrieval` label is recorded and nothing is
injected, contradicting "always surfaces the first entry whose content is
non-empty". -/
theorem C10_counterexample :
    testC10State.memory.longTermMemory.entries.map LongTermMemoryEntry.content = ["", "hello"] ∧
    "Memory_Retrieval" ∉
      (simulateAgentProcessing ceFalse 0 0 testC10State "" none).1.lastDecisionPath ∧
    ctxGet (simulateAgentProcessing ceFalse 0 0 testC10State
        "" none).1.currentStateContext "relevantMemory" = JVal.undef := by decide

/-- Claim C10 (amended): for the empty input every entry matches, so
retrieval returns the content of the FIRST entry of the list; when that
first entry's content is non-empty it is surfaced (`Memory_Retrieval`
recorded, content injected), and when it is empty nothing is surfaced.
In general, an input whose first case-insensitively matching entry has
non-empty content records `Memory_Retrieval` with that entry's content. -/
theorem C10_empty_input_memory (ce : CondEval) (tU tA : Int) (s : DigitalTwinState)
    (fb : Option Feedback) :
    (retrieveRelevantMemory s ""
        = (match s.memory.longTermMemory.entries with
            | [] => ""
            | e :: _ => e.content)) ∧
    (∀ (e : LongTermMemoryEntry) (es : List LongTermMemoryEntry),
      s.memory.longTermMemory.entries = e :: es → e.content ≠ "" →
      "Memory_Retrieval" ∈ (simulateAgentProcessing ce tU tA s "" fb).1.lastDecisionPath ∧
      ctxGet (simulateAgentProcessing ce tU tA s "" fb).1.currentStateContext "relevantMemory"
        = JVal.str e.content) ∧
    (∀ (input : String) (e : LongTermMemoryEntry),
      (s.memory.longTermMemory.entries.find?
          fun x => jsIncludes (jsToLower x.content) (jsToLower input)) = some e →
      e.content ≠ "" →
      "Memory_Retrieval" ∈ (simulateAgentProcessing ce tU tA s input fb).1.lastDecisionPath ∧
      ctxGet (simulateAgentProcessing ce tU tA s input fb).1.currentStateContext "relevantMemory"
        = JVal.str e.content) := by
  refine ⟨retrieveRelevantMemory_empty_query s, ?_, ?_⟩
  · intro e es hentries hcontent
    have hr : retrieveRelevantMemory s "" = e.content := by
      rw [retrieveRelevantMemory_empty_query, hentries]
    have h := memory_injection ce tU tA s "" fb (by rw [hr]; exact hcontent)
    rw [hr] at h
    exact h
  · intro input e hfind hcontent
    have hr : retrieveRelevantMemory s input = e.content :=
      retrieveRelevantMemory_find? s input e hfind
    have h := memory_injection ce tU tA s input fb (by rw [hr]; exact hcontent)
    rw [hr] at h
    exact h

/-- Witness for C10: empty input against the return-policy state (first
entry non-empty) surfaces that entry. -/
theorem C10_witness :
    "Memory_Retrieval" ∈
      (simulateAgentProcessing ceFalse 0 0 testMemState "" none).1.lastDecisionPath ∧
    ctxGet (simulateAgentProcessing ceFalse 0 0 testMemState "" none).1.currentStateContext
        "relevantMemory"
      = JVal.str "The return policy is 30 days for a full refund." :=
  (C10_empty_input_memory ceFalse 0 0 testMemState none).2.1
    ⟨"mem1", "The return policy is 30 days for a full refund.", none, none⟩ [] rfl (by decide)

end DigitalTwin
